import Mathlib

/-!
Verification of the Labster quiz generator client (frontend/src/App.jsx,
main `App` component) against its natural-language specification.

The JavaScript controller is shallowly embedded: each React state update
handler becomes a pure function from a pre-state (plus the outcome of any
network fetch and the values returned by `Date.now()`) to a post-state.
JS strings are Lean `String`s, JS `null`/`undefined` slots are `Option`,
JS numbers that stay integral are `Nat` (arithmetic is modelled exactly;
`Math.round` of a non-negative rational is floor(x + 1/2)).
-/

set_option maxHeartbeats 1000000

/-- ASCII whitespace as matched by the `\s` class and `trim` in the source
regexes (the unicode space classes never arise in the data in play). -/
def jsIsSpace (c : Char) : Bool :=
  c == ' ' || c == '\t' || c == '\n' || c == '\r' || c == '\x0b' || c == '\x0c'

/-- Drop whitespace from both ends of a character list, as `String.prototype.trim`. -/
def trimChars (cs : List Char) : List Char :=
  ((cs.dropWhile jsIsSpace).reverse.dropWhile jsIsSpace).reverse

/-- Embeds `s.trim()` from the source. -/
def jsTrim (s : String) : String :=
  String.mk (trimChars s.data)

/-- The character class `[A-D]` under the regex `i` flag: exactly the eight
letters A–D in either case. -/
def isOptionLetter (c : Char) : Bool :=
  ('A' ≤ c && c ≤ 'D') || ('a' ≤ c && c ≤ 'd')

/-- Embeds `replace(/^[A-D]\.\s*/i, "")` from `handleSubmitQuiz` and
`fixQuizAnswers`: the regex matches one letter A–D (any case), a literal
period, then any run of whitespace, anchored at the start; on a match the
matched span is removed, otherwise the text is unchanged. -/
def dropChoiceLabel : List Char → List Char
  | a :: b :: rest =>
    if isOptionLetter a && b == '.' then rest.dropWhile jsIsSpace
    else a :: b :: rest
  | cs => cs

/-- Embeds the normalization in `handleSubmitQuiz` (lines 713–714):
`text.replace(/^[A-D]\.\s*/i, "").trim()`.  Lower-casing happens separately
at each comparison site, as in the source. -/
def jsNormalize (s : String) : String :=
  String.mk (trimChars (dropChoiceLabel s.data))

/-- Substring test on character lists: does `needle` occur contiguously in
`hay`?  Embeds `String.prototype.includes`. -/
def listContains (hay needle : List Char) : Bool :=
  match hay with
  | [] => needle.isEmpty
  | _ :: t => needle.isPrefixOf hay || listContains t needle

/-- Embeds `hay.includes(needle)` from the source (case-sensitive). -/
def strContains (hay needle : String) : Bool :=
  listContains hay.data needle.data

/-- ASCII lower-casing of one character; agrees with
`String.prototype.toLowerCase` on the ASCII data in play. -/
def asciiLower (c : Char) : Char :=
  if 'A' ≤ c && c ≤ 'Z' then Char.ofNat (c.toNat + 32) else c

/-- Embeds `s.toLowerCase()` from the source. -/
def strToLower (s : String) : String :=
  String.mk (s.data.map asciiLower)

/-- Embeds the per-question correctness test of `handleSubmitQuiz`
(lines 713–718): normalized lower-cased equality OR raw string identity. -/
def isCorrect (userChoice correctAnswer : String) : Bool :=
  (strToLower (jsNormalize userChoice) == strToLower (jsNormalize correctAnswer)) ||
    (userChoice == correctAnswer)

/-- One multiple-choice question as returned by the quiz endpoint
(field names follow the source's `q.question`, `q.options`, `q.correct_answer`). -/
structure Question where
  question : String
  options : List String
  correct_answer : String
  deriving DecidableEq, Repr

/-- The `KNOWN_CORRECT_ANSWERS` table (App.jsx lines 262–271), in the
insertion order that `Object.entries` iterates. -/
def KNOWN_CORRECT_ANSWERS : List (String × String) :=
  [("What is the main purpose of PCR?", "To amplify specific DNA regions"),
   ("Which enzyme is essential in the PCR process?", "DNA polymerase"),
   ("What is the outcome of PCR?", "Amplification of DNA"),
   ("What is the first step in PCR?", "Denaturation"),
   ("What role does Taq polymerase play in PCR?", "Extension of DNA"),
   ("Which step in PCR involves lowering the temperature to allow primers to bind to the DNA template?", "Annealing"),
   ("What is the purpose of the extension step in PCR?", "Amplifying DNA sequence"),
   ("Why is PCR considered a powerful tool in molecular biology?", "It amplifies specific DNA sequences")]

/-- Does this option's normalized, lower-cased text contain the known
answer substring?  Embeds the `find` predicate in `fixQuizAnswers` line 542–544. -/
def optionMatches (opt knownAnswer : String) : Bool :=
  strContains (strToLower (jsNormalize opt)) (strToLower knownAnswer)

/-- One pass of the inner `for...of` body of `fixQuizAnswers` for a single
table entry `kv`: if the question text contains the key, the first option
containing the known answer (normalized, case-insensitive) replaces
`correct_answer` when it differs. -/
def applyCorrection (q : Question) (kv : String × String) : Question :=
  if strContains q.question kv.1 then
    match q.options.find? (fun opt => optionMatches opt kv.2) with
    | some o => if q.correct_answer == o then q else { q with correct_answer := o }
    | none => q
  else q

/-- The full `for...of Object.entries(KNOWN_CORRECT_ANSWERS)` loop applied
to one question. -/
def fixQuestion (q : Question) : Question :=
  KNOWN_CORRECT_ANSWERS.foldl applyCorrection q

/-- Embeds `fixQuizAnswers` (App.jsx lines 527–558): when the learning
objective contains "pcr" case-insensitively, every question is run through
the correction table; otherwise the list is returned unchanged. -/
def fixQuizAnswers (learningObjective : String) (questionsData : List Question) : List Question :=
  if strContains (strToLower learningObjective) "pcr" then questionsData.map fixQuestion
  else questionsData

/-- Response shape of the quiz endpoint as consumed by `handleStartQuiz`:
`data.questions` may be absent (`none`), and `data.warning` is tested by JS
truthiness, so the empty string stands for an absent warning. -/
structure QuizResponse where
  questions : Option (List Question)
  warning : String
  deriving DecidableEq, Repr

/-- Response shape of the theory endpoint as consumed by
`handleGenerateTheory` (`data.summary_text`, `data.warning`,
`data.metadata.related_topics`). -/
structure TheoryResponse where
  summary_text : String
  warning : String
  related_topics : Option (List String)
  deriving DecidableEq, Repr

/-- The progress payload built in `handleSubmitQuiz` (lines 736–743) and
handed to the fire-and-forget `saveQuizProgress`. -/
structure ProgressRecord where
  topic : String
  score : Nat
  difficulty : String
  notes : String
  time_spent : String
  used_notes : Bool
  deriving DecidableEq, Repr

/-- The React state of the main `App` component, restricted to the fields
the claims are about.  `selectedAnswers` slots are `none` for the JS `null`
fill; `quizStartTime` is `none` for the initial JS `null`.  Times are
milliseconds since epoch as returned by `Date.now()`. -/
structure AppState where
  learningObjective : String
  theory : String
  theoryWarning : String
  userNotes : String
  relatedTopics : List String
  questions : List Question
  quizWarning : String
  showQuiz : Bool
  loading : Bool
  error : String
  selectedAnswers : List (Option String)
  quizGraded : Bool
  gradedResults : List Bool
  scoreCorrect : Nat
  scoreTotal : Nat
  showProgressModal : Bool
  showHistory : Bool
  difficultyLevel : String
  quizStartTime : Option Nat
  quizElapsedTime : String
  usedNotes : Bool
  deriving DecidableEq, Repr

/-- Embeds `resetQuizState` (App.jsx lines 615–623); `t` is the value of the
`Date.now()` call inside it. -/
def resetQuizState (s : AppState) (t : Nat) : AppState :=
  { s with quizGraded := false, gradedResults := [],
           scoreCorrect := 0, scoreTotal := 0,
           quizStartTime := some t, quizElapsedTime := "00:00",
           usedNotes := false }

/-- Embeds `handleGenerateTheory` (App.jsx lines 466–521) as a state
transformer.  `outcome` is the result of the fetch: `Except.error m` for a
transport failure, non-ok HTTP status or unparseable body (`m` the JS error
message, possibly empty), `Except.ok d` for a parsed success payload. -/
def handleGenerateTheory (pre : AppState) (outcome : Except String TheoryResponse) : AppState :=
  if jsTrim pre.learningObjective = "" then
    { pre with error := "Please enter a learning objective or select a suggestion" }
  else
    let s0 := { pre with loading := true, error := "", theory := "",
                         theoryWarning := "", userNotes := "" }
    let s1 :=
      match outcome with
      | Except.ok d =>
        let s2 := { s0 with theory := d.summary_text }
        let s3 := if d.warning = "" then s2 else { s2 with theoryWarning := d.warning }
        match d.related_topics with
        | some r => { s3 with relatedTopics := r }
        | none => s3
      | Except.error m =>
        { s0 with error := "Failed to load theory from server. " ++ m }
    { s1 with loading := false }

/-- Embeds `handleStartQuiz` (App.jsx lines 564–610).  `t1` is the
`Date.now()` stored before the fetch, `t2` the one inside `resetQuizState`
on the success path; `outcome` is `none` when the fetch or JSON parsing
threw, otherwise the parsed payload. -/
def handleStartQuiz (pre : AppState) (t1 t2 : Nat) (outcome : Option QuizResponse) : AppState :=
  let s0 := { pre with loading := true, error := "", quizWarning := "",
                       usedNotes := false, quizStartTime := some t1 }
  let s1 :=
    match outcome with
    | some data =>
      match data.questions with
      | some qs =>
        if 0 < qs.length then
          let fixedQuestions := fixQuizAnswers pre.learningObjective qs
          let s2 := { s0 with questions := fixedQuestions,
                              selectedAnswers := List.replicate fixedQuestions.length none,
                              showQuiz := true }
          let s3 := resetQuizState s2 t2
          if data.warning = "" then s3 else { s3 with quizWarning := data.warning }
        else { s0 with error := "Failed to generate quiz questions. Please try again." }
      | none => { s0 with error := "Failed to generate quiz questions. Please try again." }
    | none => { s0 with error := "Failed to generate quiz questions. Please try again." }
  { s1 with loading := false }

/-- Embeds `handleGoBack` (App.jsx lines 628–647); `t` is the `Date.now()`
of the `resetQuizState` call on the quiz branch. -/
def handleGoBack (pre : AppState) (t : Nat) : AppState :=
  let s1 :=
    if pre.showQuiz then
      resetQuizState { pre with showQuiz := false, questions := [],
                                selectedAnswers := [], quizWarning := "" } t
    else if pre.theory ≠ "" then
      { pre with theory := "", theoryWarning := "", userNotes := "" }
    else if pre.showHistory then
      { pre with showHistory := false }
    else pre
  { s1 with error := "" }

/-- Embeds `selectAnswer` (App.jsx lines 654–661).  The UI invokes it only
with an index of a rendered question, hence in range; `List.set` matches the
JS element assignment on every in-range index. -/
def selectAnswer (pre : AppState) (questionIndex : Nat) (choice : String) : AppState :=
  if pre.quizGraded then pre
  else { pre with selectedAnswers := pre.selectedAnswers.set questionIndex (some choice) }

/-- Left zero-padding to two digits, as `String(n).padStart(2, '0')`. -/
def padTwo (n : Nat) : String :=
  if n < 10 then "0" ++ toString n else toString n

/-- Embeds `calculateTimeSpent` (App.jsx lines 667–675); `tNow` is the
`Date.now()` inside it. -/
def calculateTimeSpent (pre : AppState) (tNow : Nat) : String :=
  match pre.quizStartTime with
  | none => "00:00"
  | some t0 =>
    let ms := tNow - t0
    padTwo (ms / 60000) ++ ":" ++ padTwo (ms % 60000 / 1000)

/-- Grades one slot: `null`/missing selections compare unequal to any
correct-answer string in JS, hence `false`. -/
def gradeOne (userChoice : Option String) (correctAnswer : String) : Bool :=
  match userChoice with
  | some u => isCorrect u correctAnswer
  | none => false

/-- Embeds the `questions.map((q, i) => ...)` grading pass of
`handleSubmitQuiz` (lines 709–723): question `i` is graded against
`selectedAnswers[i]`, an out-of-range read being JS `undefined` (`none`). -/
def gradeAll : List Question → List (Option String) → List Bool
  | [], _ => []
  | q :: qs, ans => gradeOne (ans.headD none) q.correct_answer :: gradeAll qs ans.tail

/-- Embeds `Math.round((correctCount / total) * 100)` under exact rational
semantics of the source arithmetic: for `0 ≤ x`, `Math.round x` is
`⌊x + 1/2⌋`, and `⌊100*c/t + 1/2⌋ = (200*c + t) / (2*t)` in `Nat` division. -/
def scorePercentOf (c t : Nat) : Nat :=
  (200 * c + t) / (2 * t)

/-- Embeds `handleSubmitQuiz` (App.jsx lines 696–750) as a state
transformer that also yields the progress payload passed to the
fire-and-forget `saveQuizProgress` (`none` when validation failed and no
grading happened); `tNow` is the `Date.now()` of `calculateTimeSpent`. -/
def handleSubmitQuiz (pre : AppState) (tNow : Nat) : AppState × Option ProgressRecord :=
  let unansweredCount := (pre.selectedAnswers.filter (fun a => a == none)).length
  if 0 < unansweredCount then
    ({ pre with error := "Please answer all questions. " ++ toString unansweredCount ++
                         " question(s) remain unanswered." }, none)
  else
    let newGradedResults := gradeAll pre.questions pre.selectedAnswers
    let correctCount := newGradedResults.count true
    let r : ProgressRecord :=
      { topic := pre.learningObjective,
        score := scorePercentOf correctCount pre.questions.length,
        difficulty := pre.difficultyLevel,
        notes := pre.userNotes,
        time_spent := calculateTimeSpent pre tNow,
        used_notes := pre.usedNotes }
    ({ pre with gradedResults := newGradedResults, quizGraded := true,
                scoreCorrect := correctCount, scoreTotal := pre.questions.length,
                showProgressModal := true }, some r)

/-- Embeds `handleRetakeQuiz` (App.jsx lines 815–819); `t` is the
`Date.now()` inside its `resetQuizState` call. -/
def handleRetakeQuiz (pre : AppState) (t : Nat) : AppState :=
  { resetQuizState { pre with selectedAnswers := List.replicate pre.questions.length none } t
      with showProgressModal := false }

/-- Embeds `handleExitQuiz` (App.jsx lines 824–831). -/
def handleExitQuiz (pre : AppState) (t : Nat) : AppState :=
  { resetQuizState { pre with showQuiz := false, questions := [],
                              selectedAnswers := [], quizWarning := "" } t
      with showProgressModal := false }

/-- Render guard of the "no questions" fallback sub-screen
(App.jsx line 1546): `showQuiz && questions.length === 0 && !loading && !error`. -/
def emptyQuizFallbackShown (s : AppState) : Bool :=
  s.showQuiz && s.questions.isEmpty && !s.loading && (s.error == "")

/-- The controller operations the length-invariant claim quantifies over:
quiz load, answer selection, submit, retake, back and exit, each carrying
the `Date.now()` values and fetch outcome its handler consumes. -/
inductive ControllerOp where
  | startQuiz (t1 t2 : Nat) (outcome : Option QuizResponse)
  | select (i : Nat) (choice : String)
  | submit (tNow : Nat)
  | retake (t : Nat)
  | goBack (t : Nat)
  | exitQuiz (t : Nat)
  deriving Repr

/-- Dispatch of one controller operation to its handler. -/
def applyOp (s : AppState) : ControllerOp → AppState
  | ControllerOp.startQuiz t1 t2 outcome => handleStartQuiz s t1 t2 outcome
  | ControllerOp.select i choice => selectAnswer s i choice
  | ControllerOp.submit tNow => (handleSubmitQuiz s tNow).1
  | ControllerOp.retake t => handleRetakeQuiz s t
  | ControllerOp.goBack t => handleGoBack s t
  | ControllerOp.exitQuiz t => handleExitQuiz s t

/-- One `selectedAnswers` slot per question. -/
def answersMatchQuestions (s : AppState) : Prop :=
  s.selectedAnswers.length = s.questions.length

/-- Selection events come from option buttons rendered per question, so
their index is always in range; other operations carry no index. -/
def opInRange (s : AppState) : ControllerOp → Prop
  | ControllerOp.select i _ => i < s.questions.length
  | _ => True

/-- A concrete initial controller state (all React `useState` initial
values, with the PCR objective typed in and medium difficulty) used to
instantiate theorems at explicit inputs. -/
def mkState : AppState :=
  { learningObjective := "Describe the main steps of PCR"
    theory := ""
    theoryWarning := ""
    userNotes := ""
    relatedTopics := ["Cell Division Overview", "Meiosis vs Mitosis", "DNA Structure"]
    questions := []
    quizWarning := ""
    showQuiz := false
    loading := false
    error := ""
    selectedAnswers := []
    quizGraded := false
    gradedResults := []
    scoreCorrect := 0
    scoreTotal := 0
    showProgressModal := false
    showHistory := false
    difficultyLevel := "medium"
    quizStartTime := none
    quizElapsedTime := "00:00"
    usedNotes := false }

/-- A concrete two-option question used to instantiate theorems. -/
def sampleQuestion : Question :=
  { question := "Which process divides a eukaryotic nucleus?"
    options := ["A. Mitosis", "B. Osmosis"]
    correct_answer := "A. Mitosis" }

/-- A concrete PCR question whose server-supplied correct answer is wrong,
used to instantiate the known-corrections theorems. -/
def pcrQuestion : Question :=
  { question := "What is the main purpose of PCR?"
    options := ["A. To copy proteins", "B. To cut DNA",
                "C. To amplify specific DNA regions", "D. To sequence genomes"]
    correct_answer := "A. To copy proteins" }

/-- `getD` after `set` at the written index reads the written value. -/
lemma getD_set_self {α : Type} (l : List α) (i : Nat) (v d : α) (h : i < l.length) :
    (l.set i v).getD i d = v := by
  induction l generalizing i with
  | nil => simp at h
  | cons a l ih =>
    cases i with
    | zero => rfl
    | succ n => simpa using ih n (by simpa using h)

/-- `getD` after `set` at any other index is unchanged. -/
lemma getD_set_of_ne {α : Type} (l : List α) {i j : Nat} (v d : α) (h : j ≠ i) :
    (l.set i v).getD j d = l.getD j d := by
  induction l generalizing i j with
  | nil => simp
  | cons a l ih =>
    cases i with
    | zero =>
      cases j with
      | zero => exact absurd rfl h
      | succ m => simp
    | succ n =>
      cases j with
      | zero => simp
      | succ m => simpa using ih (fun hh => h (by rw [hh]))

/-- The grading pass produces one boolean per question. -/
lemma gradeAll_length (qs : List Question) (ans : List (Option String)) :
    (gradeAll qs ans).length = qs.length := by
  induction qs generalizing ans with
  | nil => rfl
  | cons q qs ih => simp [gradeAll, ih]

/-- With one slot per question, the number of `true`s produced by the
grading pass is the number of question/slot pairs whose slot grades
correct. -/
lemma gradeAll_count (qs : List Question) (ans : List (Option String))
    (h : ans.length = qs.length) :
    (gradeAll qs ans).count true =
      (qs.zip ans).countP (fun p => gradeOne p.2 p.1.correct_answer) := by
  induction qs generalizing ans with
  | nil => rfl
  | cons q qs ih =>
    cases ans with
    | nil => simp at h
    | cons a ans =>
      have h' : ans.length = qs.length := by simpa using h
      simp [gradeAll, List.count_cons, List.countP_cons, ih ans h']

/-- `selectAnswer` never touches the timer start. -/
lemma selectAnswer_quizStartTime (s : AppState) (i : Nat) (c : String) :
    (selectAnswer s i c).quizStartTime = s.quizStartTime := by
  unfold selectAnswer; split <;> rfl

/-- `handleSubmitQuiz` never touches the timer start. -/
lemma handleSubmitQuiz_quizStartTime (s : AppState) (tNow : Nat) :
    ((handleSubmitQuiz s tNow).1).quizStartTime = s.quizStartTime := by
  unfold handleSubmitQuiz
  dsimp only
  split <;> rfl

/-- A string with the fixed failure text as a first segment is never empty. -/
lemma theoryFailMsg_ne_empty (m : String) :
    "Failed to load theory from server. " ++ m ≠ "" := by
  intro h
  have h2 : ("Failed to load theory from server. " ++ m).length = (0 : Nat) := by
    rw [h]; rfl
  rw [String.length_append] at h2
  have h3 : ("Failed to load theory from server. ").length = 35 := by decide
  omega

/-- Questions untouched by every key of the corrections table are left
unchanged by the whole fold. -/
lemma foldl_applyCorrection_skip (l : List (String × String)) (q : Question)
    (h : ∀ kv ∈ l, strContains q.question kv.1 = false) :
    l.foldl applyCorrection q = q := by
  induction l with
  | nil => rfl
  | cons kv l ih =>
    have hk : applyCorrection q kv = q := by
      unfold applyCorrection
      rw [h kv (List.mem_cons_self kv l)]
      simp
    rw [List.foldl_cons, hk]
    exact ih (fun kv' hkv' => h kv' (List.mem_cons_of_mem kv hkv'))

/-- `applyCorrection` never changes the question text or options. -/
lemma applyCorrection_question (q : Question) (kv : String × String) :
    (applyCorrection q kv).question = q.question ∧
      (applyCorrection q kv).options = q.options := by
  unfold applyCorrection
  split
  · split
    · split <;> simp
    · simp
  · simp

/-- C1: for all strings `u` and `c`, `isCorrect u c` is true exactly when
the normalized forms compare equal case-insensitively or the raw strings
are identical; in particular `isCorrect "Mitosis" "B. Mitosis"` and
`isCorrect "A. X" "B. X"` are true while `isCorrect "A. X" "A. Y"` is
false. -/
theorem c1_isCorrect_characterization :
    (∀ u c : String, isCorrect u c = true ↔
      (strToLower (jsNormalize u) = strToLower (jsNormalize c) ∨ u = c)) ∧
    isCorrect "Mitosis" "B. Mitosis" = true ∧
    isCorrect "A. X" "B. X" = true ∧
    isCorrect "A. X" "A. Y" = false := by
  refine ⟨fun u c => ?_, by decide, by decide, by decide⟩
  simp [isCorrect]

/-- C5 counterexample: the claim says a prefix with no period, such as in
"B Mitosis", is also stripped; the source regex `/^[A-D]\.\s*/i` requires
the period, so "B Mitosis" is left whole and does not normalize to
"mitosis". -/
theorem c5_counterexample :
    jsNormalize "B Mitosis" = "B Mitosis" ∧
    strToLower (jsNormalize "B Mitosis") ≠ strToLower (jsNormalize "Mitosis") ∧
    strToLower (jsNormalize "B Mitosis") ≠ "mitosis" := by
  decide

/-- C5 amended: `normalize` strips a leading option-letter prefix of the
form one letter A–D (either case) followed by a MANDATORY period and then
optional whitespace, and trims the remainder; when the second character is
not a period nothing is stripped; lower-casing happens only at comparison,
and `normalize "B. Mitosis"` and `normalize "Mitosis"` both lower-case to
"mitosis". -/
theorem c5_normalize_amended :
    (∀ (a : Char) (rest : List Char), isOptionLetter a = true →
      jsNormalize (String.mk (a :: '.' :: rest)) =
        String.mk (trimChars (rest.dropWhile jsIsSpace))) ∧
    (∀ (a b : Char) (rest : List Char), b ≠ '.' →
      jsNormalize (String.mk (a :: b :: rest)) =
        String.mk (trimChars (a :: b :: rest))) ∧
    jsNormalize "B. Mitosis" = "Mitosis" ∧
    strToLower (jsNormalize "B. Mitosis") = "mitosis" ∧
    strToLower (jsNormalize "Mitosis") = "mitosis" := by
  refine ⟨?_, ?_, by decide, by decide, by decide⟩
  · intro a rest h
    simp [jsNormalize, dropChoiceLabel, h]
  · intro a b rest h
    simp [jsNormalize, dropChoiceLabel, h]

/-- C5 witness: the amended normalization theorem applied at the concrete
prefixed string "B. foo" (letter B, period, one space). -/
theorem c5_normalize_amended_witness :
    jsNormalize (String.mk ('B' :: '.' :: [' ', 'f', 'o', 'o'])) =
      String.mk (trimChars ([' ', 'f', 'o', 'o'].dropWhile jsIsSpace)) :=
  c5_normalize_amended.1 'B' [' ', 'f', 'o', 'o'] (by decide)

/-- C2: with one slot per question, submitting while some slot is `none`
only sets an error reporting the unanswered count (all other state,
including every answer slot, unchanged; no progress payload); submitting
with all slots filled grades: `quizGraded` becomes true, the total is
`questions.length`, and the correct count is the number of question/slot
pairs graded correct by `isCorrect`. -/
theorem c2_submit_guard_and_grade (pre : AppState) (tNow : Nat)
    (hlen : pre.selectedAnswers.length = pre.questions.length) :
    (0 < (pre.selectedAnswers.filter (fun a => a == none)).length →
      (handleSubmitQuiz pre tNow).1 =
        { pre with error := "Please answer all questions. " ++
            toString (pre.selectedAnswers.filter (fun a => a == none)).length ++
            " question(s) remain unanswered." } ∧
      (handleSubmitQuiz pre tNow).1.selectedAnswers = pre.selectedAnswers ∧
      (handleSubmitQuiz pre tNow).1.quizGraded = pre.quizGraded ∧
      (handleSubmitQuiz pre tNow).1.showQuiz = pre.showQuiz ∧
      (handleSubmitQuiz pre tNow).2 = none) ∧
    ((pre.selectedAnswers.filter (fun a => a == none)).length = 0 →
      (handleSubmitQuiz pre tNow).1.quizGraded = true ∧
      (handleSubmitQuiz pre tNow).1.scoreTotal = pre.questions.length ∧
      (handleSubmitQuiz pre tNow).1.scoreCorrect =
        (pre.questions.zip pre.selectedAnswers).countP
          (fun p => gradeOne p.2 p.1.correct_answer) ∧
      (handleSubmitQuiz pre tNow).1.selectedAnswers = pre.selectedAnswers) := by
  constructor
  · intro h
    simp [handleSubmitQuiz, if_pos h]
  · intro h
    simp [handleSubmitQuiz, h, gradeAll_count pre.questions pre.selectedAnswers hlen]

/-- C2 witness: the submit theorem applied to a concrete one-question state
with the slot filled; the guard passes and grading marks the quiz graded. -/
theorem c2_submit_witness :
    ((handleSubmitQuiz
        { mkState with questions := [sampleQuestion],
                       selectedAnswers := [some "A. Mitosis"] } 7).1).quizGraded = true :=
  ((c2_submit_guard_and_grade
      { mkState with questions := [sampleQuestion],
                     selectedAnswers := [some "A. Mitosis"] } 7 rfl).2 (by decide)).1

/-- C3 counterexample: at a concrete theory-screen state, a success
response carrying zero questions makes `handleStartQuiz` set the failure
error message and stay off the quiz screen, so the "no questions"
sub-screen (whose render guard requires no error) is not shown — contrary
to the claim that this outcome is not treated as an error and yields a
zero-question QuizActive. -/
theorem c3_counterexample :
    (handleStartQuiz { mkState with theory := "Theory text." } 5 6
        (some { questions := some [], warning := "" })).showQuiz = false ∧
    (handleStartQuiz { mkState with theory := "Theory text." } 5 6
        (some { questions := some [], warning := "" })).error =
      "Failed to generate quiz questions. Please try again." ∧
    emptyQuizFallbackShown
      (handleStartQuiz { mkState with theory := "Theory text." } 5 6
        (some { questions := some [], warning := "" })) = false := by
  decide

/-- C3 amended: a success response with zero questions IS treated as an
error by `handleStartQuiz`: it sets the quiz failure error message, leaves
`showQuiz` false and `questions`/`selectedAnswers` unchanged, and the
distinct "no questions" fallback sub-screen is not rendered (its guard
requires an empty error). -/
theorem c3_empty_result_amended (pre : AppState) (t1 t2 : Nat) (w : String)
    (hq : pre.showQuiz = false) :
    (handleStartQuiz pre t1 t2 (some { questions := some [], warning := w })).error =
      "Failed to generate quiz questions. Please try again." ∧
    (handleStartQuiz pre t1 t2 (some { questions := some [], warning := w })).showQuiz = false ∧
    (handleStartQuiz pre t1 t2 (some { questions := some [], warning := w })).questions =
      pre.questions ∧
    (handleStartQuiz pre t1 t2 (some { questions := some [], warning := w })).selectedAnswers =
      pre.selectedAnswers ∧
    emptyQuizFallbackShown
      (handleStartQuiz pre t1 t2 (some { questions := some [], warning := w })) = false := by
  simp [handleStartQuiz, emptyQuizFallbackShown, hq]

/-- C3 witness: the amended empty-result theorem applied at the concrete
initial state. -/
theorem c3_empty_result_amended_witness :
    (handleStartQuiz mkState 5 6 (some { questions := some [], warning := "" })).error =
      "Failed to generate quiz questions. Please try again." :=
  (c3_empty_result_amended mkState 5 6 "" rfl).1

/-- C4: a theory fetch issued from `Home` (no theory stored, no quiz or
history screen) that fails leaves the controller in `Home` with the failure
error message set, and the observable theory value equals the (empty) value
held before the request. -/
theorem c4_theory_failure_keeps_home (pre : AppState) (m : String)
    (hHome : pre.theory = "") (hq : pre.showQuiz = false) (hh : pre.showHistory = false)
    (hobj : jsTrim pre.learningObjective ≠ "") :
    (handleGenerateTheory pre (Except.error m)).theory = pre.theory ∧
    (handleGenerateTheory pre (Except.error m)).theory = "" ∧
    (handleGenerateTheory pre (Except.error m)).showQuiz = false ∧
    (handleGenerateTheory pre (Except.error m)).showHistory = false ∧
    (handleGenerateTheory pre (Except.error m)).error =
      "Failed to load theory from server. " ++ m ∧
    (handleGenerateTheory pre (Except.error m)).error ≠ "" ∧
    (handleGenerateTheory pre (Except.error m)).questions = pre.questions := by
  refine ⟨?_, ?_, ?_, ?_, ?_, ?_, ?_⟩ <;>
    simp [handleGenerateTheory, hobj, hHome, hq, hh, theoryFailMsg_ne_empty]

/-- C4 witness: the theory-failure theorem applied at the concrete initial
state with a concrete error message. -/
theorem c4_theory_failure_keeps_home_witness :
    (handleGenerateTheory mkState (Except.error "boom")).theory = mkState.theory :=
  (c4_theory_failure_keeps_home mkState "boom" rfl rfl rfl (by decide)).1

/-- C6: for an objective containing "pcr" case-insensitively, the
correction pass runs on every question; a question containing the key
"What is the main purpose of PCR?" (and no other table key) whose options
contain a normalized case-insensitive match for "To amplify specific DNA
regions" gets its `correct_answer` overwritten with that option, whatever
the server supplied; text and options are untouched. -/
theorem c6_known_corrections (obj : String) (qs : List Question) (q : Question) (o : String)
    (hobj : strContains (strToLower obj) "pcr" = true)
    (hq : q ∈ qs)
    (hkey : strContains q.question "What is the main purpose of PCR?" = true)
    (hothers : ∀ kv ∈ KNOWN_CORRECT_ANSWERS.tail, strContains q.question kv.1 = false)
    (hfind : q.options.find?
        (fun opt => optionMatches opt "To amplify specific DNA regions") = some o) :
    fixQuizAnswers obj qs = qs.map fixQuestion ∧
    fixQuestion q ∈ fixQuizAnswers obj qs ∧
    (fixQuestion q).correct_answer = o ∧
    (fixQuestion q).question = q.question ∧
    (fixQuestion q).options = q.options := by
  have hmap : fixQuizAnswers obj qs = qs.map fixQuestion := by
    simp [fixQuizAnswers, hobj]
  have hq1 : (applyCorrection q
        ("What is the main purpose of PCR?", "To amplify specific DNA regions")).correct_answer = o ∧
      (applyCorrection q
        ("What is the main purpose of PCR?", "To amplify specific DNA regions")).question = q.question ∧
      (applyCorrection q
        ("What is the main purpose of PCR?", "To amplify specific DNA regions")).options = q.options := by
    by_cases hco : q.correct_answer = o <;>
      simp [applyCorrection, hkey, hfind, hco]
  have hcons : KNOWN_CORRECT_ANSWERS =
      ("What is the main purpose of PCR?", "To amplify specific DNA regions") ::
        KNOWN_CORRECT_ANSWERS.tail := rfl
  have hfold : fixQuestion q =
      List.foldl applyCorrection
        (applyCorrection q ("What is the main purpose of PCR?", "To amplify specific DNA regions"))
        KNOWN_CORRECT_ANSWERS.tail := by
    unfold fixQuestion
    conv_lhs => rw [hcons]
    rw [List.foldl_cons]
  have hskip : List.foldl applyCorrection
      (applyCorrection q ("What is the main purpose of PCR?", "To amplify specific DNA regions"))
      KNOWN_CORRECT_ANSWERS.tail =
      applyCorrection q ("What is the main purpose of PCR?", "To amplify specific DNA regions") := by
    apply foldl_applyCorrection_skip
    intro kv hkv
    rw [hq1.2.1]
    exact hothers kv hkv
  refine ⟨hmap, ?_, ?_, ?_, ?_⟩
  · rw [hmap]
    exact List.mem_map_of_mem fixQuestion hq
  · rw [hfold, hskip]; exact hq1.1
  · rw [hfold, hskip]; exact hq1.2.1
  · rw [hfold, hskip]; exact hq1.2.2

/-- C6 witness: the corrections theorem applied to the concrete PCR
objective and the concrete mis-keyed PCR question; the overwritten answer
is the amplify option. -/
theorem c6_known_corrections_witness :
    (fixQuestion pcrQuestion).correct_answer = "C. To amplify specific DNA regions" :=
  (c6_known_corrections "Describe the main steps of PCR" [pcrQuestion] pcrQuestion
      "C. To amplify specific DNA regions" (by decide) (by simp) (by decide)
      (by decide) (by decide)).2.2.1

/-- C7: retake resets every answer slot to `none` and `usedNotes` to
false, and starts a new timing whose `startedAt` is the fresh `Date.now()`
value — strictly after the previous attempt's start whenever the clock
strictly advanced between the two reads; within the new attempt neither
answer selection nor submission touches `startedAt` again. -/
theorem c7_retake_resets (pre : AppState) (t t0 : Nat) (hc : t0 < t) :
    (handleRetakeQuiz pre t).selectedAnswers = List.replicate pre.questions.length none ∧
    (handleRetakeQuiz pre t).usedNotes = false ∧
    (handleRetakeQuiz pre t).quizStartTime = some t ∧
    (pre.quizStartTime = some t0 →
      ∀ u, (handleRetakeQuiz pre t).quizStartTime = some u → t0 < u) ∧
    (∀ i c, (selectAnswer (handleRetakeQuiz pre t) i c).quizStartTime =
      (handleRetakeQuiz pre t).quizStartTime) ∧
    (∀ tn, ((handleSubmitQuiz (handleRetakeQuiz pre t) tn).1).quizStartTime =
      (handleRetakeQuiz pre t).quizStartTime) := by
  refine ⟨?_, ?_, ?_, ?_, ?_, ?_⟩
  · simp [handleRetakeQuiz, resetQuizState]
  · simp [handleRetakeQuiz, resetQuizState]
  · simp [handleRetakeQuiz, resetQuizState]
  · intro h0 u hu
    simp [handleRetakeQuiz, resetQuizState] at hu
    omega
  · intro i c
    exact selectAnswer_quizStartTime (handleRetakeQuiz pre t) i c
  · intro tn
    exact handleSubmitQuiz_quizStartTime (handleRetakeQuiz pre t) tn

/-- C7 witness: the retake theorem applied to a concrete graded state whose
previous attempt started at 5000 ms, retaken at 9000 ms. -/
theorem c7_retake_resets_witness :
    (handleRetakeQuiz
        { mkState with questions := [sampleQuestion],
                       selectedAnswers := [some "B. Osmosis"],
                       quizGraded := true, usedNotes := true,
                       quizStartTime := some 5000 } 9000).usedNotes = false :=
  (c7_retake_resets
      { mkState with questions := [sampleQuestion],
                     selectedAnswers := [some "B. Osmosis"],
                     quizGraded := true, usedNotes := true,
                     quizStartTime := some 5000 } 9000 5000 (by decide)).2.1

/-- C8: the score stored in the progress payload is
`(200*c + t) / (2*t)`, which is the half-up rounding of `100*c/t` to the
nearest integer — it is the unique `p` with `2*t*p ≤ 200*c + t < 2*t*p + 2*t`
— and 4 correct of 5 yields exactly 80; every graded submission stores
exactly this value for its correct count and question total. -/
theorem c8_score_percent_rounding (c t : Nat) (ht : 0 < t) :
    2 * t * scorePercentOf c t ≤ 200 * c + t ∧
    200 * c + t < 2 * t * scorePercentOf c t + 2 * t ∧
    scorePercentOf 4 5 = 80 ∧
    (∀ (pre : AppState) (tNow : Nat),
      (pre.selectedAnswers.filter (fun a => a == none)).length = 0 →
      ((handleSubmitQuiz pre tNow).2).map ProgressRecord.score =
        some (scorePercentOf ((gradeAll pre.questions pre.selectedAnswers).count true)
          pre.questions.length)) := by
  have h2t : 0 < 2 * t := by omega
  have hdm := Nat.div_add_mod (200 * c + t) (2 * t)
  have hml : (200 * c + t) % (2 * t) < 2 * t := Nat.mod_lt _ h2t
  refine ⟨?_, ?_, by decide, ?_⟩
  · unfold scorePercentOf
    omega
  · unfold scorePercentOf
    omega
  · intro pre tNow h
    simp [handleSubmitQuiz, h]

/-- C8 witness: the rounding theorem applied at 4 correct of 5. -/
theorem c8_score_percent_rounding_witness :
    2 * 5 * scorePercentOf 4 5 ≤ 200 * 4 + 5 :=
  (c8_score_percent_rounding 4 5 (by decide)).1

/-- C9: once graded, `selectAnswer` is a no-op on the whole state; while
ungraded it only rewrites `selectedAnswers` at the given index — the
written slot reads back the choice, every other slot reads back its
previous value, and every other field is untouched. -/
theorem c9_selectAnswer_frame (pre : AppState) (i : Nat) (choice : String) :
    (pre.quizGraded = true → selectAnswer pre i choice = pre) ∧
    (pre.quizGraded = false →
      selectAnswer pre i choice =
        { pre with selectedAnswers := pre.selectedAnswers.set i (some choice) } ∧
      (i < pre.selectedAnswers.length →
        (selectAnswer pre i choice).selectedAnswers.getD i none = some choice) ∧
      (∀ j, j ≠ i →
        (selectAnswer pre i choice).selectedAnswers.getD j none =
          pre.selectedAnswers.getD j none)) := by
  refine ⟨fun h => by simp [selectAnswer, h], fun h => ⟨?_, ?_, ?_⟩⟩
  · simp [selectAnswer, h]
  · intro hi
    simp only [selectAnswer, h, if_false, Bool.false_eq_true]
    exact getD_set_self pre.selectedAnswers i (some choice) none hi
  · intro j hj
    simp only [selectAnswer, h, if_false, Bool.false_eq_true]
    exact getD_set_of_ne pre.selectedAnswers (some choice) none hj

/-- C9 witness: the frame theorem applied to a concrete two-question
ungraded state, selecting index 0. -/
theorem c9_selectAnswer_frame_witness :
    (selectAnswer
        { mkState with questions := [sampleQuestion, sampleQuestion],
                       selectedAnswers := [none, none] } 0 "A. Mitosis").selectedAnswers.getD
      0 none = some "A. Mitosis" :=
  ((c9_selectAnswer_frame
      { mkState with questions := [sampleQuestion, sampleQuestion],
                     selectedAnswers := [none, none] } 0 "A. Mitosis").2 rfl).2.1 (by decide)

/-- C10: every controller operation — quiz load with any outcome, in-range
answer selection, submit, retake, back and exit — preserves the invariant
that `selectedAnswers` has exactly one slot per question (including both
being empty). -/
theorem c10_one_slot_per_question (s : AppState) (op : ControllerOp)
    (hInv : answersMatchQuestions s) (hok : opInRange s op) :
    answersMatchQuestions (applyOp s op) := by
  cases op with
  | startQuiz t1 t2 outcome =>
    cases outcome with
    | none => simpa [applyOp, handleStartQuiz, answersMatchQuestions] using hInv
    | some data =>
      obtain ⟨qopt, w⟩ := data
      cases qopt with
      | none => simpa [applyOp, handleStartQuiz, answersMatchQuestions] using hInv
      | some qs =>
        by_cases hl : 0 < qs.length
        · by_cases hw : w = "" <;>
            simp [applyOp, handleStartQuiz, answersMatchQuestions, resetQuizState, hl, hw]
        · simpa [applyOp, handleStartQuiz, answersMatchQuestions, hl] using hInv
  | select i choice =>
    by_cases hg : s.quizGraded <;>
      simp_all [applyOp, selectAnswer, answersMatchQuestions, hg]
  | submit tNow =>
    simp only [applyOp]
    unfold handleSubmitQuiz
    dsimp only
    split <;> simpa [answersMatchQuestions] using hInv
  | retake t =>
    simp [applyOp, handleRetakeQuiz, resetQuizState, answersMatchQuestions]
  | goBack t =>
    simp only [applyOp]
    unfold handleGoBack
    dsimp only
    split_ifs <;> simp_all [resetQuizState, answersMatchQuestions]
  | exitQuiz t =>
    simp [applyOp, handleExitQuiz, resetQuizState, answersMatchQuestions]

/-- C10 witness: the invariant theorem applied to a concrete one-question
active state and a concrete in-range selection. -/
theorem c10_one_slot_per_question_witness :
    answersMatchQuestions
      (applyOp { mkState with questions := [sampleQuestion], selectedAnswers := [none],
                              showQuiz := true }
        (ControllerOp.select 0 "A. Mitosis")) :=
  c10_one_slot_per_question
    { mkState with questions := [sampleQuestion], selectedAnswers := [none], showQuiz := true }
    (ControllerOp.select 0 "A. Mitosis") rfl (by simp [opInRange])
